import Mathlib

/-!
Shallow embedding of the github-webhook-watcher repository
(webhookclient/main.py and intra_deploy/main.py), with theorems settling
the specification claims about event classification, the polling loops,
repository synchronization, configuration validation and the process
supervisor.
-/

namespace WebhookWatcher

/-! ## Event classification

`webhookclient/main.py`, `process_webhook_payload` (lines 107-130): the
deploy decision is `event == "push" and (branch == "refs/heads/master" or
branch == "refs/heads/main")`, where `event = headers.get("x-github-event")`
and `branch = payload.get("ref")`.  Absent keys give Python `None`,
modelled as `none`.

`intra_deploy/main.py`, `process_webhook_payload` (lines 33-50): the
deploy decision is `payload.get("ref") == "refs/heads/master" or
payload.get("ref") == "refs/heads/main"`; the event-type header is not
consulted at all.
-/

/-- Classification decision of `webhookclient.main.process_webhook_payload`:
`"deploy"` iff the `x-github-event` header is `"push"` and the payload
`ref` is `refs/heads/master` or `refs/heads/main`. -/
def classifyWebhookclient (event : Option String) (ref : Option String) : String :=
  if event = some "push" ∧
      (ref = some "refs/heads/master" ∨ ref = some "refs/heads/main") then
    "deploy"
  else
    "ignore"

/-- Classification decision of `intra_deploy.main.process_webhook_payload`:
`"deploy"` iff the payload `ref` is `refs/heads/master` or
`refs/heads/main`; the event-type header is never read. -/
def classifyIntraDeploy (ref : Option String) : String :=
  if ref = some "refs/heads/master" ∨ ref = some "refs/heads/main" then
    "deploy"
  else
    "ignore"

/-! ## intra_deploy polling loop with backoff

`intra_deploy/main.py`, `poll_messages` (lines 63-110).  State carried
across iterations: `current_delay`, starting at `base_delay = 1`, capped
at `max_delay = 60`.  One iteration either

* raises while listing attempts (`ApiException` or any other exception):
  `current_delay = min(current_delay * 2, max_delay)` and the loop sleeps
  that new delay before continuing; or
* obtains a list of messages: each one is processed inside a
  `try/except`; a successfully processed message sets
  `current_delay = base_delay`; a failing one is logged and the loop moves
  to the next message; after the list the loop sleeps `current_delay`.
-/

/-- Base delay of the intra_deploy backoff (`base_delay = 1`). -/
def base_delay : Nat := 1

/-- Cap of the intra_deploy backoff (`max_delay = 60`). -/
def max_delay : Nat := 60

/-- Outcome of `process_webhook_payload(msg)` for one message: either it
returns, or it raises (the exception text is recorded for the log). -/
inductive ProcResult where
  | ok : ProcResult
  | raises : String → ProcResult
deriving DecidableEq, Repr

/-- The inner `for msg in iterator` loop of `intra_deploy.poll_messages`:
threads `current_delay`, resets it to `base_delay` after a successfully
processed message, logs and skips a failing one.  Returns the final delay
together with the per-message record (id, processed successfully?). -/
def intraLoop : Nat → List (String × ProcResult) → Nat × List (String × Bool)
  | delay, [] => (delay, [])
  | _, (i, ProcResult.ok) :: rest =>
      let r := intraLoop base_delay rest
      (r.1, (i, true) :: r.2)
  | delay, (i, ProcResult.raises _) :: rest =>
      let r := intraLoop delay rest
      (r.1, (i, false) :: r.2)

/-- Outcome of one polling iteration of `intra_deploy.poll_messages`:
either the Svix listing succeeds and yields messages (each with its
processing outcome), or the iteration raises. -/
inductive PollOutcome where
  | success : List (String × ProcResult) → PollOutcome
  | failure : PollOutcome

/-- One iteration of the `while` loop of `intra_deploy.poll_messages`:
given the entering `current_delay` and the iteration outcome, returns
(new `current_delay`, seconds slept at the end of the iteration). -/
def pollStep (delay : Nat) : PollOutcome → Nat × Nat
  | PollOutcome.success results =>
      let d := (intraLoop delay results).1
      (d, d)
  | PollOutcome.failure =>
      let d := min (delay * 2) max_delay
      (d, d)

/-- Delay after a sequence of iteration outcomes, starting from
`base_delay` as `poll_messages` does. -/
def delayAfter (outcomes : List PollOutcome) : Nat :=
  outcomes.foldl (fun d o => (pollStep d o).1) base_delay

/-! ## webhookclient poller

`webhookclient/main.py`, `poll_messages` (lines 145-176) and `run_poller`
(lines 192-213), and `process_messages` (lines 178-190).
-/

/-- Body of a 200 response as consumed by `poll_messages`: the three JSON
fields read with `data.get("data", [])`, `data.get("iterator", "")`,
`data.get("done", True)`.  `none` models an absent key. -/
structure PageBody where
  data : Option (List String)
  iterator : Option String
  done : Option Bool
deriving DecidableEq, Repr

/-- Outcome of the single `session.get` of `poll_messages`: a response
with its HTTP status (and, when 200, the parsed JSON body), or a raised
transport error. -/
inductive HttpOutcome where
  | response : Nat → PageBody → HttpOutcome
  | exn : String → HttpOutcome
deriving DecidableEq, Repr

/-- URL built by `poll_messages`: the endpoint with `?iterator=` and the
cursor appended when `iterator` is truthy (neither `None` nor `""`),
else the bare endpoint. -/
def pollUrl (endpoint_url : String) (iterator : Option String) : String :=
  match iterator with
  | none => endpoint_url
  | some it => if it = "" then endpoint_url else endpoint_url ++ "?iterator=" ++ it

/-- `webhookclient.main.poll_messages`: returns `(messages, iterator,
done)`; any non-200 status and any raised exception yield `([], "",
True)`. -/
def poll_messages (outcome : HttpOutcome) : List String × String × Bool :=
  match outcome with
  | HttpOutcome.response status body =>
      if status ≠ 200 then ([], "", true)
      else (body.data.getD [], body.iterator.getD "", body.done.getD true)
  | HttpOutcome.exn _ => ([], "", true)

/-- `webhookclient.main.process_messages`: iterates over the page, wraps
each message in its own `try/except`, logs a failing one and moves on.
Returns, per message and in page order, (id, processed without
exception?). -/
def process_messages : List (String × ProcResult) → List (String × Bool)
  | [] => []
  | (i, ProcResult.ok) :: rest => (i, true) :: process_messages rest
  | (i, ProcResult.raises _) :: rest => (i, false) :: process_messages rest

/-- Observable result of one iteration of the `while True` loop of
`run_poller`: the iterator stored for the next poll, the seconds slept
(`await asyncio.sleep(poll_interval)`), and whether the loop goes on to
another iteration. -/
structure CycleResult where
  nextIterator : String
  sleepSeconds : Nat
  continues : Bool
deriving DecidableEq, Repr

/-- One iteration of `webhookclient.main.run_poller`: polls, processes
any messages, stores `next_iterator` unconditionally, sleeps the fixed
`poll_interval`.  The loop is `while True` with no `break` or `return`,
so every iteration is followed by another. -/
def runPollerCycle (poll_interval : Nat) (outcome : HttpOutcome) : CycleResult :=
  let r := poll_messages outcome
  { nextIterator := r.2.1, sleepSeconds := poll_interval, continues := true }

/-- Iterator held by `run_poller` after `n` iterations against a fixed
per-iteration HTTP outcome, starting from the initial `iterator = None`. -/
def iteratorAfter (poll_interval : Nat) (outcome : HttpOutcome) : Nat → Option String
  | 0 => none
  | _ + 1 => some (runPollerCycle poll_interval outcome).nextIterator

/-! ## Repository synchronization: filesystem effect

`webhookclient/main.py`, `update_local` (lines 30-105), existing-copy
branch: `git fetch origin` (which only updates the remote-tracking ref,
not the working tree), `git rev-parse --abbrev-ref HEAD`, then
`git reset --hard origin/<branch>`.

The working copy is modelled as an association list of files plus the set
of git-tracked paths.  `git reset --hard <tip>` is modelled after the
documented git semantics: every path tracked by the target commit is
written with the target content (overwriting whatever file occupied that
path, tracked or not); previously tracked paths absent from the target
are removed; untracked paths that the target does not track are left
alone.
-/

/-- Files as an association list path ↦ content. -/
abbrev FileMap := List (String × String)

/-- Content at a path (first match wins, as on a real filesystem the path
is unique). -/
def findFile : FileMap → String → Option String
  | [], _ => none
  | (q, c) :: rest, p => if q = p then some c else findFile rest p

/-- Membership of a path in a list of paths. -/
def pathMem : List String → String → Bool
  | [], _ => false
  | q :: rest, p => if q = p then true else pathMem rest p

/-- A git working copy: files on disk, the set of tracked paths, and the
number of local commits ahead of the remote-tracking ref. -/
structure WorkingCopy where
  worktree : FileMap
  tracked : List String
  headAhead : Nat
deriving DecidableEq, Repr

/-- `git reset --hard <tip>`: the target commit content wins on every
path it tracks, previously tracked paths disappear unless the target
tracks them, untracked paths outside the target are untouched, and local
commits are discarded. -/
def gitResetHard (tip : FileMap) (wc : WorkingCopy) : WorkingCopy :=
  { worktree :=
      tip ++ wc.worktree.filter
        (fun f => !(pathMem wc.tracked f.1) && (findFile tip f.1).isNone),
    tracked := tip.map Prod.fst,
    headAhead := 0 }

/-- `git fetch origin` only updates the remote-tracking ref; the working
copy is unchanged, so the filesystem effect of the existing-copy branch
of `update_local` (fetch, rev-parse, reset) is the reset against the
fetched tip. -/
def update_local_sync (wc : WorkingCopy) (tip : FileMap) : WorkingCopy :=
  gitResetHard tip wc

/-! ## Repository synchronization: error surface

`update_local` (lines 50-105) runs under one outer
`try/except subprocess.CalledProcessError/except Exception`.  Every
`CalledProcessError` from clone, fetch or reset becomes
`RuntimeError("Git operation failed: <stderr>")` (the reset step is
additionally logged with step context by an inner handler before
re-raising).  The rev-parse step (lines 78-82) is special: it uses
`check_output` without capturing stderr, so its `CalledProcessError`
has `stderr = None`; the inner handler (line 95) then evaluates
`e.stderr.strip()`, which raises `AttributeError` from inside the
handler, and that `AttributeError` reaches the outer `except Exception`
— the surfaced error is `RuntimeError("Unexpected error during update:
<AttributeError text>")` and what git wrote on stderr is lost.  Every
other exception becomes
`RuntimeError("Unexpected error during update: <msg>")`.
-/

/-- Text of the `AttributeError` raised by `e.stderr.strip()` when
`e.stderr` is `None`, written with hexadecimal escapes for the two
quoted attribute names. -/
def noneTypeStripMessage : String :=
  "\x27NoneType\x27 object has no attribute \x27strip\x27"

/-- Result of one subprocess invocation inside `update_local`: it
returns, raises `CalledProcessError` carrying git stderr (`check=True`),
or raises some other exception (I/O, permissions). -/
inductive StepResult where
  | ok : StepResult
  | fails : String → StepResult
  | raisesOther : String → StepResult
deriving DecidableEq, Repr

/-- The exception `update_local` surfaces: always a `RuntimeError`
carrying a message string; the step that failed is not encoded in the
exception. -/
inductive UpdateError where
  | runtimeError : String → UpdateError
deriving DecidableEq, Repr

/-- Error behaviour of `update_local`, given whether the repo path
exists and the outcome of each git invocation (clone on the missing
path; fetch, rev-parse, then reset on the existing path).  A
`CalledProcessError` from rev-parse carries `stderr = None`
(`check_output` does not capture stderr), so the inner handler itself
raises `AttributeError` and the outer generic handler surfaces the
`AttributeError` text instead of anything git reported — the carried
stderr argument is discarded on that path. -/
def update_local (repoExists : Bool) (clone fetch revParse reset : StepResult) :
    Except UpdateError Unit :=
  if repoExists then
    match fetch with
    | StepResult.ok =>
        match revParse with
        | StepResult.ok =>
            match reset with
            | StepResult.ok => Except.ok ()
            | StepResult.fails stderr =>
                Except.error (UpdateError.runtimeError ("Git operation failed: " ++ stderr))
            | StepResult.raisesOther m =>
                Except.error (UpdateError.runtimeError ("Unexpected error during update: " ++ m))
        | StepResult.fails _ =>
            Except.error (UpdateError.runtimeError
              ("Unexpected error during update: " ++ noneTypeStripMessage))
        | StepResult.raisesOther m =>
            Except.error (UpdateError.runtimeError ("Unexpected error during update: " ++ m))
    | StepResult.fails stderr =>
        Except.error (UpdateError.runtimeError ("Git operation failed: " ++ stderr))
    | StepResult.raisesOther m =>
        Except.error (UpdateError.runtimeError ("Unexpected error during update: " ++ m))
  else
    match clone with
    | StepResult.ok => Except.ok ()
    | StepResult.fails stderr =>
        Except.error (UpdateError.runtimeError ("Git operation failed: " ++ stderr))
    | StepResult.raisesOther m =>
        Except.error (UpdateError.runtimeError ("Unexpected error during update: " ++ m))

/-! ## Poll-interval configuration

`webhookclient/main.py`, `main` (lines 567-574):
`poll_interval = int(os.getenv("SVIX_POLLING_INTERVAL", "30"))`, then
`if poll_interval <= 0: raise ValueError(...)`; a `ValueError` from
either line is caught, logged, and `main` returns before `run_poller`
is ever started.
-/

/-- Whitespace stripped by Python `int()` before parsing. -/
def isPySpace (c : Char) : Bool :=
  c = ' ' || c = '\t' || c = '\n' || c = '\r' || c = '\x0b' || c = '\x0c'

/-- Numeric value of an ASCII digit. -/
def digitVal (c : Char) : Nat := c.toNat - 48

/-- Digits of a Python integer literal after the first digit: plain
digits, with single underscores allowed between digits. -/
def digitsLoop (acc : Nat) : List Char → Option Nat
  | [] => some acc
  | ['_'] => none
  | '_' :: d :: rest =>
      if d.isDigit then digitsLoop (acc * 10 + digitVal d) rest else none
  | c :: rest =>
      if c.isDigit then digitsLoop (acc * 10 + digitVal c) rest else none

/-- A Python digit run must start with a digit (not an underscore) and
be nonempty. -/
def digitsStart : List Char → Option Nat
  | [] => none
  | c :: rest => if c.isDigit then digitsLoop (digitVal c) rest else none

/-- Python `int(s)` for base 10: strip surrounding whitespace, accept an
optional sign, then a nonempty digit run; anything else raises
`ValueError`, modelled as `none`. -/
def pythonInt (s : String) : Option Int :=
  let cs := ((s.data.dropWhile isPySpace).reverse.dropWhile isPySpace).reverse
  match cs with
  | '+' :: rest => (digitsStart rest).map (fun n => (n : Int))
  | '-' :: rest => (digitsStart rest).map (fun n => -(n : Int))
  | rest => (digitsStart rest).map (fun n => (n : Int))

/-- The poll interval `main` actually runs with: the parsed value of
`SVIX_POLLING_INTERVAL` (default `"30"`) when it parses and is positive;
`none` when `main` logs the configuration error and returns. -/
def mainPollInterval (envVal : Option String) : Option Int :=
  match pythonInt (envVal.getD "30") with
  | none => none
  | some n => if n ≤ 0 then none else some n

/-- Whether `main` reaches `run_poller` as far as interval validation is
concerned. -/
def mainStartsPoller (envVal : Option String) : Bool :=
  (mainPollInterval envVal).isSome

/-! ## Process supervisor

`webhookclient/main.py`: `check_project` (lines 352-374),
`start_project` (lines 376-426), `check_and_restart_if_needed`
(lines 474-487).  The `pgrep` query outcome is abstracted as
`Option Bool`: `some b` for an exit status meaning running / not
running, `none` for an exception while querying (caught and resolved to
`False`).  A "launch" is one `subprocess.Popen` invocation.
-/

/-- `check_project`: `True` iff `pgrep` exited 0; an exception while
querying is caught and yields `False`. -/
def check_project (query : Option Bool) : Bool :=
  query.getD false

/-- Number of `Popen` launches performed by `start_project`: none when
`check_project` already reports running, exactly one otherwise (a launch
failure is caught and logged after the single attempt). -/
def start_project (query : Option Bool) : Nat :=
  if check_project query then 0 else 1

/-- Supervision configuration read from the environment by
`check_and_restart_if_needed`. -/
structure SupervisorEnv where
  grepcommand : Option String
  runcommand : Option String
deriving DecidableEq, Repr

/-- Python truthiness of `os.getenv(...)`: unset or empty is falsy. -/
def envTruthy : Option String → Bool
  | none => false
  | some s => s ≠ ""

/-- Number of launches performed by `check_and_restart_if_needed`:
returns immediately unless both GREPCOMMAND and RUNCOMMAND are set;
otherwise starts the project only when `check_project` reports not
running (and `start_project` checks again before launching). -/
def check_and_restart_if_needed (env : SupervisorEnv) (query : Option Bool) : Nat :=
  if !(envTruthy env.grepcommand) || !(envTruthy env.runcommand) then 0
  else if !(check_project query) then start_project query
  else 0

/-! ## Helper lemmas -/

theorem findFile_append_of_none {tip rest : FileMap} {p : String}
    (h : findFile tip p = none) : findFile (tip ++ rest) p = findFile rest p := by
  induction tip with
  | nil => rfl
  | cons a t ih =>
      rcases a with ⟨q, c⟩
      by_cases hq : q = p
      · simp [findFile, hq] at h
      · simp only [List.cons_append, findFile, if_neg hq] at h ⊢
        exact ih h

theorem findFile_filter_of_key {q : String → Bool} {fs : FileMap} {p : String}
    (hq : q p = true) :
    findFile (fs.filter (fun f => q f.1)) p = findFile fs p := by
  induction fs with
  | nil => rfl
  | cons a t ih =>
      rcases a with ⟨k, c⟩
      by_cases hk : k = p
      · subst hk
        simp [List.filter_cons, hq, findFile]
      · cases hqk : q k
        · simp only [List.filter_cons, hqk, Bool.false_eq_true, if_neg]
          simp only [findFile, if_neg hk]
          exact ih
        · simp only [List.filter_cons, hqk, if_pos]
          simp only [findFile, if_neg hk]
          exact ih

theorem pathMem_map_fst_of_findFile_none {tip : FileMap} {p : String}
    (h : findFile tip p = none) : pathMem (tip.map Prod.fst) p = false := by
  induction tip with
  | nil => rfl
  | cons a t ih =>
      rcases a with ⟨k, c⟩
      by_cases hk : k = p
      · simp [findFile, hk] at h
      · simp only [findFile, if_neg hk] at h
        simp only [List.map_cons, pathMem, if_neg hk]
        exact ih h

theorem findFile_sync_filter {wc : WorkingCopy} {tip : FileMap} {p : String}
    (hun : pathMem wc.tracked p = false) (htip : findFile tip p = none) :
    findFile (wc.worktree.filter
      (fun f => !(pathMem wc.tracked f.1) && (findFile tip f.1).isNone)) p
      = findFile wc.worktree p := by
  apply findFile_filter_of_key (q := fun x => !(pathMem wc.tracked x) && (findFile tip x).isNone)
  simp [hun, htip]

theorem foldl_failure_delay (n : Nat) :
    ∀ d : Nat, d ≤ max_delay →
      List.foldl (fun a o => (pollStep a o).1) d (List.replicate n PollOutcome.failure)
        = min (d * 2 ^ n) max_delay := by
  induction n with
  | zero =>
      intro d hd
      simp only [List.replicate, List.foldl_nil, pow_zero, mul_one]
      omega
  | succ n ih =>
      intro d hd
      rw [List.replicate_succ, List.foldl_cons]
      have h1 : (pollStep d PollOutcome.failure).1 = min (d * 2) max_delay := rfl
      rw [h1, ih (min (d * 2) max_delay) (min_le_right _ _)]
      rcases le_or_lt (d * 2) max_delay with hle | hlt
      · rw [min_eq_left hle]
        have : d * 2 * 2 ^ n = d * 2 ^ (n + 1) := by rw [pow_succ]; ring
        rw [this]
      · rw [min_eq_right (le_of_lt hlt)]
        have hm : (1 : Nat) ≤ 2 ^ n := Nat.one_le_two_pow
        have e1 : min (max_delay * 2 ^ n) max_delay = max_delay :=
          min_eq_right (le_mul_of_one_le_right (Nat.zero_le _) hm)
        have e2 : max_delay ≤ d * 2 ^ (n + 1) := by
          calc max_delay ≤ d * 2 := le_of_lt hlt
            _ ≤ d * 2 * 2 ^ n := le_mul_of_one_le_right (Nat.zero_le _) hm
            _ = d * 2 ^ (n + 1) := by rw [pow_succ]; ring
        rw [e1, min_eq_right e2]

theorem delayAfter_replicate_failure (n : Nat) :
    delayAfter (List.replicate n PollOutcome.failure) = min (2 ^ n) max_delay := by
  have h := foldl_failure_delay n base_delay (by decide)
  simpa [delayAfter, base_delay] using h

theorem process_messages_ids (msgs : List (String × ProcResult)) :
    (process_messages msgs).map Prod.fst = msgs.map Prod.fst := by
  induction msgs with
  | nil => rfl
  | cons a rest ih =>
      rcases a with ⟨i, r⟩
      cases r <;> simp [process_messages, ih]

theorem intraLoop_ids (d : Nat) (msgs : List (String × ProcResult)) :
    (intraLoop d msgs).2.map Prod.fst = msgs.map Prod.fst := by
  induction msgs generalizing d with
  | nil => rfl
  | cons a rest ih =>
      rcases a with ⟨i, r⟩
      cases r <;> simp [intraLoop, ih]

/-! ## Claim theorems -/

/-- C1: counterexample.  The claim states that in both implementations
classification yields "deploy" exactly when the event-type header is
"push" and the ref is master or main.  This is false for
`intra_deploy.main.process_webhook_payload`, which never reads the
event type: a payload with ref `refs/heads/main` delivered under event
type "ping" is classified "deploy" there. -/
theorem C1_classification_counterexample :
    ¬ (∀ (event ref : Option String),
        classifyIntraDeploy ref = "deploy" ↔
          (event = some "push" ∧
            (ref = some "refs/heads/master" ∨ ref = some "refs/heads/main"))) := by
  intro h
  have h2 := (h (some "ping") (some "refs/heads/main")).mp (by decide)
  exact absurd h2.1 (by decide)

/-- C1: amended.  The webhookclient implementation classifies "deploy"
exactly when the event-type header is "push" and the ref is
`refs/heads/master` or `refs/heads/main`; the intra_deploy
implementation classifies "deploy" exactly when the ref is one of those
two branches, regardless of the event type; both are total, yielding
"ignore" in every other case. -/
theorem C1_classification_characterization (event ref : Option String) :
    (classifyWebhookclient event ref = "deploy" ↔
      (event = some "push" ∧
        (ref = some "refs/heads/master" ∨ ref = some "refs/heads/main")))
    ∧ (classifyIntraDeploy ref = "deploy" ↔
      (ref = some "refs/heads/master" ∨ ref = some "refs/heads/main"))
    ∧ (classifyWebhookclient event ref = "deploy" ∨
        classifyWebhookclient event ref = "ignore")
    ∧ (classifyIntraDeploy ref = "deploy" ∨ classifyIntraDeploy ref = "ignore") := by
  unfold classifyWebhookclient classifyIntraDeploy
  refine ⟨?_, ?_, ?_, ?_⟩ <;> split <;> simp_all

/-- C2: counterexample.  The claim states that any success resets the
wait interval to the 1-second base.  In `intra_deploy.poll_messages`
the delay is reset only when a message is processed successfully: after
two consecutive failures (delay 4), a successful poll that returns no
messages sleeps 4 seconds, not 1. -/
theorem C2_backoff_counterexample :
    (pollStep (pollStep (pollStep base_delay PollOutcome.failure).1
        PollOutcome.failure).1 (PollOutcome.success [])).2 = 4
    ∧ (4 : Nat) ≠ base_delay := by decide

/-- C2: amended.  In `intra_deploy.poll_messages` each consecutive
failure doubles the delay capped at 60 seconds, the newly doubled delay
is what is slept (so `n` consecutive failures from the base leave the
delay at `min (2 ^ n) 60`), the delay is reset to the 1-second base by
a successfully processed message, and a successful poll with no
messages leaves the delay unchanged.  `webhookclient.run_poller` always
sleeps the fixed poll interval, with no backoff at all. -/
theorem C2_backoff_behavior (d n interval : Nat) (i : String)
    (rest : List (String × ProcResult)) (outcome : HttpOutcome) :
    pollStep d PollOutcome.failure = (min (d * 2) max_delay, min (d * 2) max_delay)
    ∧ delayAfter (List.replicate n PollOutcome.failure) = min (2 ^ n) max_delay
    ∧ (intraLoop d ((i, ProcResult.ok) :: rest)).1 = (intraLoop base_delay rest).1
    ∧ (pollStep d (PollOutcome.success [])).1 = d
    ∧ (runPollerCycle interval outcome).sleepSeconds = interval :=
  ⟨rfl, delayAfter_replicate_failure n, rfl, rfl, rfl⟩

/-- C3: counterexample.  The claim states that every untracked file
present before `sync` survives with unmodified content.  Under the
documented semantics of `git reset --hard`, a path that is untracked
locally but tracked by the fetched remote tip is overwritten with the
remote content: a working copy holding untracked `config.txt` with
content "local", reset to a tip tracking `config.txt` with content
"remote", ends with content "remote". -/
theorem C3_untracked_counterexample :
    findFile (WorkingCopy.mk [("config.txt", "local")] [] 0).worktree "config.txt"
        = some "local"
    ∧ pathMem (WorkingCopy.mk [("config.txt", "local")] [] 0).tracked "config.txt"
        = false
    ∧ findFile (update_local_sync (WorkingCopy.mk [("config.txt", "local")] [] 0)
        [("config.txt", "remote")]).worktree "config.txt" = some "remote"
    ∧ (some "remote" : Option String) ≠ some "local" := by decide

/-- C3: amended.  An untracked file whose path the fetched remote tip
does not track survives `update_local` unmodified, and survives a
second, no-remote-change `update_local` as well (the sync is
re-runnable). -/
theorem C3_sync_preserves_untracked (wc : WorkingCopy) (tip : FileMap)
    (p : String) (c : String)
    (hfile : findFile wc.worktree p = some c)
    (hun : pathMem wc.tracked p = false)
    (htip : findFile tip p = none) :
    findFile (update_local_sync wc tip).worktree p = some c
    ∧ findFile (update_local_sync (update_local_sync wc tip) tip).worktree p
        = some c := by
  have step : ∀ w : WorkingCopy, pathMem w.tracked p = false →
      findFile w.worktree p = some c →
      findFile (update_local_sync w tip).worktree p = some c := by
    intro w hw hfw
    unfold update_local_sync gitResetHard
    simp only
    rw [findFile_append_of_none htip, findFile_sync_filter hw htip, hfw]
  have h1 := step wc hun hfile
  refine ⟨h1, ?_⟩
  have htr : pathMem (update_local_sync wc tip).tracked p = false := by
    unfold update_local_sync gitResetHard
    simp only
    exact pathMem_map_fst_of_findFile_none htip
  exact step (update_local_sync wc tip) htr h1

/-- C3: witness for the amended theorem, at a working copy that tracks
`app.py` and carries the untracked runtime secret `secrets.env`. -/
theorem C3_sync_preserves_untracked_witness :
    findFile (update_local_sync
        (WorkingCopy.mk [("app.py", "v1"), ("secrets.env", "tok")] ["app.py"] 3)
        [("app.py", "v2")]).worktree "secrets.env" = some "tok" :=
  (C3_sync_preserves_untracked
    (WorkingCopy.mk [("app.py", "v1"), ("secrets.env", "tok")] ["app.py"] 3)
    [("app.py", "v2")] "secrets.env" "tok"
    (by decide) (by decide) (by decide)).1

/-- C4: counterexample.  The claim states that clone, fetch and reset
failures are distinguished as CloneFailed, FetchFailed and ResetFailed.
In `update_local` every `CalledProcessError` from those three steps
reaches the same outer handler and becomes the same `RuntimeError`
with the same message format, so a clone failure, a fetch failure and
a reset failure with identical git stderr are indistinguishable; and a
rev-parse failure does not even carry what git reported, surfacing via
the generic handler instead. -/
theorem C4_error_counterexample :
    update_local false (StepResult.fails "boom") StepResult.ok StepResult.ok StepResult.ok
      = update_local true StepResult.ok (StepResult.fails "boom") StepResult.ok StepResult.ok
    ∧ update_local true StepResult.ok (StepResult.fails "boom") StepResult.ok StepResult.ok
      = update_local true StepResult.ok StepResult.ok StepResult.ok (StepResult.fails "boom")
    ∧ update_local false (StepResult.fails "boom") StepResult.ok StepResult.ok StepResult.ok
      = Except.error (UpdateError.runtimeError "Git operation failed: boom")
    ∧ update_local true StepResult.ok StepResult.ok (StepResult.fails "boom") StepResult.ok
      = Except.error (UpdateError.runtimeError
          ("Unexpected error during update: " ++ noneTypeStripMessage)) := by
  refine ⟨rfl, rfl, rfl, rfl⟩

/-- C4: amended.  A failing clone, fetch or reset invocation in
`update_local` surfaces a `RuntimeError` carrying what git reported on
stderr, with the one message format "Git operation failed: ..."
identical across those three steps (reset failures are additionally
logged with step context before re-raising); a failing rev-parse
invocation loses what git reported — its uncaptured stderr is `None`,
the inner handler raises `AttributeError` on it, and the surfaced error
is the generic "Unexpected error during update: ..." carrying only the
`AttributeError` text; any non-git exception likewise surfaces as
"Unexpected error during update: ...". -/
theorem C4_update_local_error_surface (s m : String) :
    update_local false (StepResult.fails s) StepResult.ok StepResult.ok StepResult.ok
      = Except.error (UpdateError.runtimeError ("Git operation failed: " ++ s))
    ∧ update_local true StepResult.ok (StepResult.fails s) StepResult.ok StepResult.ok
      = Except.error (UpdateError.runtimeError ("Git operation failed: " ++ s))
    ∧ update_local true StepResult.ok StepResult.ok StepResult.ok (StepResult.fails s)
      = Except.error (UpdateError.runtimeError ("Git operation failed: " ++ s))
    ∧ update_local true StepResult.ok StepResult.ok (StepResult.fails s) StepResult.ok
      = Except.error (UpdateError.runtimeError
          ("Unexpected error during update: " ++ noneTypeStripMessage))
    ∧ update_local false (StepResult.raisesOther m) StepResult.ok StepResult.ok StepResult.ok
      = Except.error (UpdateError.runtimeError ("Unexpected error during update: " ++ m))
    ∧ update_local true StepResult.ok (StepResult.raisesOther m) StepResult.ok StepResult.ok
      = Except.error (UpdateError.runtimeError ("Unexpected error during update: " ++ m))
    ∧ update_local true StepResult.ok StepResult.ok (StepResult.raisesOther m) StepResult.ok
      = Except.error (UpdateError.runtimeError ("Unexpected error during update: " ++ m))
    ∧ update_local true StepResult.ok StepResult.ok StepResult.ok (StepResult.raisesOther m)
      = Except.error (UpdateError.runtimeError ("Unexpected error during update: " ++ m)) :=
  ⟨rfl, rfl, rfl, rfl, rfl, rfl, rfl, rfl⟩

/-- C5: for any cursor state, a non-200 response and a raised transport
error each make `poll_messages` return exactly the triple
`([], "", True)` instead of raising to the caller. -/
theorem C5_poll_failure_empty_page (status : Nat) (body : PageBody) (e : String)
    (h : status ≠ 200) :
    poll_messages (HttpOutcome.response status body) = ([], "", true)
    ∧ poll_messages (HttpOutcome.exn e) = ([], "", true) := by
  constructor
  · simp [poll_messages, h]
  · rfl

/-- C5: witness at a 500 response and a concrete transport error. -/
theorem C5_poll_failure_empty_page_witness :
    poll_messages (HttpOutcome.response 500 (PageBody.mk none none none))
        = ([], "", true)
    ∧ poll_messages (HttpOutcome.exn "timeout") = ([], "", true) :=
  C5_poll_failure_empty_page 500 (PageBody.mk none none none) "timeout" (by decide)

/-- C6: every iteration of the `while True` loop of `run_poller` sleeps
the configured interval and is followed by another iteration, for every
poll outcome; in particular, against an endpoint forever answering an
empty page with `done = true`, the iterator after any number of cycles
is defined (the loop reached that cycle) and the loop still continues. -/
theorem C6_loop_never_self_terminates (interval n : Nat) (outcome : HttpOutcome) :
    (runPollerCycle interval outcome).continues = true
    ∧ (runPollerCycle interval outcome).sleepSeconds = interval
    ∧ (runPollerCycle interval
        (HttpOutcome.response 200 (PageBody.mk (some []) (some "") (some true)))).continues
        = true
    ∧ iteratorAfter interval
        (HttpOutcome.response 200 (PageBody.mk (some []) (some "") (some true))) (n + 1)
        = some "" :=
  ⟨rfl, rfl, rfl, rfl⟩

/-- C7: when SVIX_POLLING_INTERVAL does not parse as an integer, or
parses to a non-positive value, `main` never reaches `run_poller`; and
whenever the poller does start, it runs with exactly the parsed value —
never a clamped or substituted one. -/
theorem C7_invalid_interval_rejected (v : Option String) :
    ((∀ k : Int, pythonInt (v.getD "30") = some k → k ≤ 0) →
      mainStartsPoller v = false)
    ∧ (∀ k : Int, mainPollInterval v = some k →
        pythonInt (v.getD "30") = some k ∧ 0 < k) := by
  constructor
  · intro h
    unfold mainStartsPoller mainPollInterval
    cases hp : pythonInt (v.getD "30") with
    | none => rfl
    | some k =>
        have hk := h k hp
        simp [if_pos hk]
  · intro k hk
    unfold mainPollInterval at hk
    split at hk
    · exact absurd hk (by simp)
    · rename_i j hp
      split at hk
      · exact absurd hk (by simp)
      · rename_i hj
        have hjk : j = k := by simpa using hk
        subst hjk
        exact ⟨hp, by omega⟩

/-- C7: witness at the interval configured as the string "-5": startup
refuses to start the poll loop. -/
theorem C7_invalid_interval_rejected_witness :
    mainStartsPoller (some "-5") = false :=
  (C7_invalid_interval_rejected (some "-5")).1
    (by
      intro k hk
      have he : pythonInt ((some "-5").getD "30") = some (-5) := by decide
      rw [he] at hk
      have hk5 : (-5 : Int) = k := by simpa using hk
      omega)

/-- C8: whenever `check_project` reports true, `start_project` launches
nothing and `check_and_restart_if_needed` launches nothing; whenever it
reports false, `start_project` performs exactly one launch — so no call
path produces a second concurrent instance while one is detected. -/
theorem C8_no_duplicate_instance (env : SupervisorEnv) (query : Option Bool) :
    (check_project query = true →
      start_project query = 0 ∧ check_and_restart_if_needed env query = 0)
    ∧ (check_project query = false → start_project query = 1) := by
  constructor
  · intro h
    constructor
    · simp [start_project, h]
    · cases henv : (!(envTruthy env.grepcommand) || !(envTruthy env.runcommand)) <;>
        simp [check_and_restart_if_needed, henv, h]
  · intro h
    simp [start_project, h]

/-- C8: witness covering both branches at a concrete supervisor
configuration and process-table state. -/
theorem C8_no_duplicate_instance_witness :
    start_project (some true) = 0
    ∧ check_and_restart_if_needed
        (SupervisorEnv.mk (some "uv run main.py") (some "main.py")) (some true) = 0
    ∧ start_project (some false) = 1 := by
  refine ⟨?_, ?_, ?_⟩
  · exact ((C8_no_duplicate_instance
      (SupervisorEnv.mk (some "uv run main.py") (some "main.py")) (some true)).1
      (by decide)).1
  · exact ((C8_no_duplicate_instance
      (SupervisorEnv.mk (some "uv run main.py") (some "main.py")) (some true)).1
      (by decide)).2
  · exact (C8_no_duplicate_instance
      (SupervisorEnv.mk (some "uv run main.py") (some "main.py")) (some false)).2
      (by decide)

/-- C9: per-event fault isolation: in both message loops every event of
a page is attempted, in page order, regardless of how many earlier
events raised — a failing event is recorded (logged) and the loop moves
on, and no exception escapes the loop. -/
theorem C9_per_event_isolation (d : Nat) (msgs : List (String × ProcResult)) :
    (process_messages msgs).map Prod.fst = msgs.map Prod.fst
    ∧ (intraLoop d msgs).2.map Prod.fst = msgs.map Prod.fst :=
  ⟨process_messages_ids msgs, intraLoop_ids d msgs⟩

/-- C10: after any failed poll, `run_poller` stores the empty iterator
returned by `poll_messages`, and the next request is therefore issued
against the bare endpoint URL, with no iterator parameter — the
stream-start position, not the last consumed cursor. -/
theorem C10_cursor_reset_on_failure (interval status : Nat) (body : PageBody)
    (e endpoint : String) (h : status ≠ 200) :
    (runPollerCycle interval (HttpOutcome.response status body)).nextIterator = ""
    ∧ (runPollerCycle interval (HttpOutcome.exn e)).nextIterator = ""
    ∧ pollUrl endpoint (some "") = endpoint := by
  refine ⟨?_, rfl, ?_⟩
  · simp [runPollerCycle, poll_messages, h]
  · rfl

/-- C10: witness at a 500 response. -/
theorem C10_cursor_reset_on_failure_witness :
    (runPollerCycle 30 (HttpOutcome.response 500 (PageBody.mk none none none))).nextIterator
        = ""
    ∧ pollUrl "https://api.eu.svix.com/api/v1/app/poller" (some "") =
        "https://api.eu.svix.com/api/v1/app/poller" := by
  refine ⟨?_, ?_⟩
  · exact (C10_cursor_reset_on_failure 30 500 (PageBody.mk none none none)
      "timeout" "https://api.eu.svix.com/api/v1/app/poller" (by decide)).1
  · exact (C10_cursor_reset_on_failure 30 500 (PageBody.mk none none none)
      "timeout" "https://api.eu.svix.com/api/v1/app/poller" (by decide)).2.2

end WebhookWatcher
